import Mathlib

/-!
Shallow embedding of the quickmd markdown previewer (src/main.rs, src/ui.rs)
and, where the repository file is absent from src/, models built from the
specification.  Imperative call sequences are embedded as traces of
`Action`s; fallible Rust calls become `Except`; the `f64` scroll offset is
modelled as an exact rational (the inputs the development evaluates it on
are small decimal numerals, where `f64` is exact).
-/

namespace Quickmd

/-- Events that trigger UI changes (src/ui.rs, `enum Event`). -/
inductive Event where
  /-- Load the given HTML string into the webview. -/
  | LoadHtml (html : String)
  /-- Refresh the webview. -/
  | Reload
  deriving DecidableEq, Repr

/-- Observable calls made by the embedded code, in program order. -/
inductive Action where
  /-- `self.webview.get_title()` read, used as the scroll side channel. -/
  | readScroll
  /-- `self.assets.build(html, scroll_top)` (src/ui.rs line 91). -/
  | buildAsset (html : String) (scroll : ℚ)
  /-- `self.webview.load_uri(uri)` (src/ui.rs line 96). -/
  | navigate (uri : String)
  /-- `self.webview.reload()` (src/ui.rs line 101). -/
  | reloadSurface
  /-- `warn!(msg)` logging (src/ui.rs line 70). -/
  | warn (msg : String)
  /-- `assets.delete()` — removal of the temporary directory. -/
  | deleteAssets
  /-- `gtk::main_quit()`. -/
  | mainQuit
  /-- `gtk::init()` (src/main.rs line 39). -/
  | gtkInitCall
  /-- `ui::App::init(..)` (src/main.rs line 48). -/
  | appInit
  /-- `ui.init_render_loop(ui_receiver)` (src/main.rs line 50). -/
  | attachRenderLoop
  /-- `ui_sender.send(event)` (src/main.rs line 53). -/
  | sendEvent (e : Event)
  /-- `background::init_update_loop(..)` (src/main.rs line 56). -/
  | startWatcher
  /-- `ui.run()` — entering the blocking GTK main loop (src/main.rs line 59). -/
  | runUI
  /-- `eprintln!("{}", e)` (src/main.rs line 33). -/
  | printErr (msg : String)
  /-- The process exits (end of `main`, or `process::exit`). -/
  | processExit
  deriving DecidableEq, Repr

/-- The webview as seen from ui.rs: its title (the scroll side channel)
and the currently loaded URI. -/
structure WebView where
  title : Option String
  uri : Option String
  deriving DecidableEq, Repr

/-- The GTK widget container (src/ui.rs, `struct App`); the `Assets` field
lives behind the `BuildEnv` parameter since assets.rs is not in src/. -/
structure App where
  webview : WebView
  deriving DecidableEq, Repr

/-- Environment parameter standing for `Assets::build`, whose body
(assets.rs) the embedded files only call; it may fail. -/
structure BuildEnv where
  build : String → ℚ → Except String String

/-- Digit-string value, most significant digit first. -/
def natOfDigits (cs : List Char) : ℕ :=
  cs.foldl (fun acc c => acc * 10 + (c.toNat - 48)) 0

/-- Model of Rust `str::parse::<f64>()` restricted to optionally signed
finite decimal numerals `[+-]digits[.digits]` (exact as rationals); the
exponent/`inf`/`NaN` forms accepted by Rust are outside the inputs this
development evaluates, and every string rejected here that Rust would
also reject yields `none` exactly as `.parse().ok()` does. -/
def parseF64 (s : String) : Option ℚ :=
  let cs := s.toList
  let signed : ℚ × List Char :=
    match cs with
    | '-' :: rest => (-1, rest)
    | '+' :: rest => (1, rest)
    | _ => (1, cs)
  let intPart := signed.2.takeWhile Char.isDigit
  let afterInt := signed.2.dropWhile Char.isDigit
  match afterInt with
  | [] =>
      if intPart.isEmpty then none
      else some (signed.1 * (natOfDigits intPart : ℚ))
  | '.' :: fracTail =>
      let fracPart := fracTail.takeWhile Char.isDigit
      let afterFrac := fracTail.dropWhile Char.isDigit
      if afterFrac ≠ [] then none
      else if intPart.isEmpty ∧ fracPart.isEmpty then none
      else some (signed.1 *
        ((natOfDigits intPart : ℚ) + (natOfDigits fracPart : ℚ) / (10 ^ fracPart.length)))
  | _ => none

/-- `self.webview.get_title().and_then(|t| t.parse::<f64>().ok()).unwrap_or(0.0)`
(src/ui.rs lines 87–89). -/
def scroll_top (title : Option String) : ℚ :=
  (title.bind parseF64).getD 0

/-- The value space of Rust `f64` parse results: finite values, the two
infinities, and NaN.  Finite magnitudes are kept as exact rationals
rather than rounded; `f64` rounding is monotone and maps non-negative
reals to non-negative floats, which is all this development uses of it. -/
inductive F64 where
  | finite (q : ℚ)
  | posInf
  | negInf
  | nan
  deriving DecidableEq, Repr

/-- The unsigned-number part of Rust's `f64` grammar:
`digits ['.' digits*] | '.' digits`, with an optional `(e|E) [sign] digits`
exponent, and nothing trailing. -/
def parseUnsigned (cs : List Char) : Option ℚ :=
  let intPart := cs.takeWhile Char.isDigit
  let rest1 := cs.dropWhile Char.isDigit
  let fracSplit : List Char × List Char :=
    match rest1 with
    | '.' :: tl => (tl.takeWhile Char.isDigit, tl.dropWhile Char.isDigit)
    | _ => ([], rest1)
  let fracPart := fracSplit.1
  let rest2 := fracSplit.2
  if intPart.isEmpty ∧ fracPart.isEmpty then none
  else
    let mant : ℚ :=
      (natOfDigits intPart : ℚ) + (natOfDigits fracPart : ℚ) / 10 ^ fracPart.length
    match rest2 with
    | [] => some mant
    | e :: tl =>
        if e = 'e' ∨ e = 'E' then
          let esplit : ℤ × List Char :=
            match tl with
            | '-' :: r => (-1, r)
            | '+' :: r => (1, r)
            | _ => (1, tl)
          let expDigits := esplit.2.takeWhile Char.isDigit
          let rest3 := esplit.2.dropWhile Char.isDigit
          if expDigits.isEmpty ∨ rest3 ≠ [] then none
          else some (mant * (10 : ℚ) ^ (esplit.1 * (natOfDigits expDigits : ℤ)))
        else none

/-- Model of Rust `str::parse::<f64>()` on its full accepted grammar
(`[sign] (inf | infinity | nan | number)` with the special values
case-insensitive, and `number` as in `parseUnsigned`): exactly the
strings Rust accepts are accepted, finite magnitudes exact as rationals. -/
def parseF64Full (s : String) : Option F64 :=
  let cs := s.toList
  let signSplit : Bool × List Char :=
    match cs with
    | '-' :: rest => (true, rest)
    | '+' :: rest => (false, rest)
    | _ => (false, cs)
  let neg := signSplit.1
  let lower := signSplit.2.map Char.toLower
  if lower = ['i', 'n', 'f'] ∨ lower = ['i', 'n', 'f', 'i', 'n', 'i', 't', 'y'] then
    some (if neg then .negInf else .posInf)
  else if lower = ['n', 'a', 'n'] then
    some .nan
  else
    (parseUnsigned signSplit.2).map (fun q => .finite (if neg then -q else q))

/-- The scroll offset `load_html` hands to `build` (src/ui.rs lines
87–89), over the full parse model: the parsed `f64` when the title
parses, `0.0` otherwise. -/
def scroll_top_f64 (title : Option String) : F64 :=
  (title.bind parseF64Full).getD (.finite 0)

/-- The IEEE comparison `(0.0 : f64) <= v`: false for NaN and for
negative values. -/
def F64.isNonneg : F64 → Bool
  | .finite q => decide (0 ≤ q)
  | .posInf => true
  | .negInf => false
  | .nan => false

/-- `App::load_html` (src/ui.rs lines 86–98): read the scroll offset from
the title, stage assets, and on success navigate to the staged path.
Returns the calls made, the updated app, and the `anyhow::Result`. -/
def load_html (env : BuildEnv) (app : App) (html : String) :
    List Action × App × Except String Unit :=
  let s := scroll_top app.webview.title
  match env.build html s with
  | .error e =>
      ([.readScroll, .buildAsset html s], app, .error e)
  | .ok output_path =>
      let target := "file://" ++ output_path
      ([.readScroll, .buildAsset html s, .navigate target],
       { app with webview := { app.webview with uri := some target } },
       .ok ())

/-- `App::reload` (src/ui.rs lines 100–102). -/
def reload (app : App) : List Action × App :=
  ([.reloadSurface], app)

/-- One turn of the render-loop closure attached in `App::init_render_loop`
(src/ui.rs lines 66–75): dispatch an event, swallowing `load_html` errors
with a warning, and return `glib::Continue(true)`. -/
def dispatch (env : BuildEnv) (app : App) (e : Event) :
    List Action × App × Bool :=
  match e with
  | .LoadHtml html =>
      match load_html env app html with
      | (acts, app', .ok ()) => (acts, app', true)
      | (acts, app', .error err) =>
          (acts ++ [.warn ("Couldn't update HTML: " ++ err)], app', true)
  | .Reload =>
      let r := reload app
      (r.1, r.2, true)

/-- GDK keyval of the Escape key (`gdk::enums::key::Escape` = 0xFF1B). -/
def keyEscape : ℕ := 65307

/-- The key-press handler installed by `App::connect_events`
(src/ui.rs lines 109–115).  The handler closure owns a
`RefCell<Option<App>>`; on Escape it does
`self_clone.borrow_mut().take().unwrap().assets.delete()` then
`gtk::main_quit()`.  The cell's contents are passed and returned
explicitly; a panic of `unwrap()` is modelled as `Except.error`. -/
def keyPressHandler (key : ℕ) (cell : Option App) :
    Except String (List Action × Option App) :=
  if key = keyEscape then
    match cell with
    | some _app => .ok ([.deleteAssets, .mainQuit], none)
    | none => .error "called Option::unwrap() on a None value"
  else
    .ok ([], cell)

/-- The window delete-event handler installed by `App::connect_events`
(src/ui.rs lines 117–120): it only calls `gtk::main_quit()`. -/
def deleteEventHandler : List Action := [.mainQuit]

/-- Modelled from the spec: assets.rs is not in src/.  Per §4.3,
`delete()` "removes the entire temporary directory and its contents;
called once, on graceful shutdown, guaranteed to run via scoped cleanup
even if shutdown is triggered by a signal/key event rather than normal
return" — so when the GTK main loop returns and `run`'s scope ends, the
Asset Stager's scoped cleanup removes the temporary directory. -/
def scopedCleanup : List Action := [.deleteAssets]

/-- Shutdown trace for the Escape-key quit path: the key handler runs
(on the first press the cell still holds the `App`), `gtk::main()`
returns, scoped cleanup fires, and the process exits. -/
def escapeShutdownTrace (app : App) : List Action :=
  (match keyPressHandler keyEscape (some app) with
   | .ok (acts, _) => acts
   | .error _ => []) ++ scopedCleanup ++ [.processExit]

/-- Shutdown trace for the window-close path: the delete-event handler
runs, `gtk::main()` returns, scoped cleanup fires, the process exits. -/
def windowCloseShutdownTrace : List Action :=
  deleteEventHandler ++ scopedCleanup ++ [.processExit]

/-- `deleteAssets` occurs strictly before `processExit` in the trace. -/
def deleteBeforeExit (tr : List Action) : Prop :=
  Action.deleteAssets ∈ tr.takeWhile (fun a => a ≠ Action.processExit)

/-- `parse(from_flag = std::ops::Not::not)` on the `--no-watch` flag
(src/main.rs lines 22–24): `watch` is the negation of whether the flag
was passed. -/
def watchOption (noWatchPassed : Bool) : Bool :=
  !noWatchPassed

/-- The host environment `run` executes against: the outcomes of its
external calls.  `initialRender` stands for `renderer.run()`, whose body
(markdown.rs) the embedded file only calls. -/
structure HostEnv where
  gtkInitOk : Bool
  fileExists : Bool
  appInitOk : Bool
  initialRender : Except String String
  watch : Bool
  inputPath : String

/-- `run` (src/main.rs lines 38–61): gtk init, existence check, app init,
render-loop attach, initial render sent on the channel, optionally start
the background update loop, then block in the UI loop.  Returns the calls
made in order and the `anyhow::Result`. -/
def run (env : HostEnv) : List Action × Except String Unit :=
  if env.gtkInitOk = false then
    ([.gtkInitCall], .error "Failed to initialize GTK")
  else if env.fileExists = false then
    ([.gtkInitCall], .error ("File not found: " ++ env.inputPath))
  else if env.appInitOk = false then
    ([.gtkInitCall, .appInit], .error "Couldn't initialize GTK WebContext")
  else
    match env.initialRender with
    | .error e =>
        ([.gtkInitCall, .appInit, .attachRenderLoop], .error e)
    | .ok html =>
        ([.gtkInitCall, .appInit, .attachRenderLoop,
          .sendEvent (.LoadHtml html)]
         ++ (if env.watch then [.startWatcher] else [])
         ++ [.runUI],
         .ok ())

/-- `main` (src/main.rs lines 27–36): run, and on error print it and
`process::exit(1)`.  Returns the trace and the process exit code. -/
def mainEntry (env : HostEnv) : List Action × ℕ :=
  match run env with
  | (tr, .ok ()) => (tr ++ [.processExit], 0)
  | (tr, .error e) => (tr ++ [.printErr e, .processExit], 1)

/-- Modelled from the spec: background.rs (the Change Watcher / Debounced
Update Loop) is not in src/.  Per §4.2, "on each raw change signal, reset
a debounce timer rather than rendering immediately; only emit a render
after a quiet period ... with no further changes".  Given the sorted
arrival times of raw change signals and the debounce window `w`, count
the emitted `LoadHtml` events: a signal followed within `w` only resets
the timer; a gap longer than `w` lets the timer expire and emit. -/
def debounceCount (w : ℕ) : List ℕ → ℕ
  | [] => 0
  | [_] => 1
  | t₁ :: t₂ :: rest =>
      if t₂ ≤ t₁ + w then debounceCount w (t₂ :: rest)
      else 1 + debounceCount w (t₂ :: rest)

/-- Modelled from the spec: the `LoadHtml` events the Watcher enqueues for
a signal timeline — one per debounce expiry, each carrying the freshly
rendered HTML (§4.2: "re-load SourceDocument, run Markdown Renderer, wrap
the result as `Event::LoadHtml`, and enqueue"). -/
def debounceEvents (w : ℕ) (signals : List ℕ) (html : String) : List Event :=
  List.replicate (debounceCount w signals) (.LoadHtml html)

/-- Modelled from the spec: markdown.rs (the Markdown Renderer) is not in
src/.  Per §4.1, `render` is a total function from markdown text to HTML:
"any input text is valid; rendering degrades gracefully (unrecognized
constructs pass through as literal text)".  Line-based: `# `/`## `
headings, blank lines kept, anything else passed through as a literal
paragraph. -/
def renderLine (l : String) : String :=
  if l.startsWith "# " then "<h1>" ++ l.drop 2 ++ "</h1>"
  else if l.startsWith "## " then "<h2>" ++ l.drop 3 ++ "</h2>"
  else if l = "" then ""
  else "<p>" ++ l ++ "</p>"

/-- Modelled from the spec: `render(content: text) -> html: text` (§4.1);
total on every input string and side-effect-free. -/
def render (m : String) : String :=
  String.intercalate "\n" ((m.splitOn "\n").map renderLine)

/-! ## Theorems -/

/-- C1: the display dispatch loop, on `LoadHtml(html)`, first reads the
scroll position from the webview, then calls `Assets::build` with that
html and scroll position, then navigates the webview to the returned
path; on `Reload` it reloads the current resource in place and never
calls `build`. -/
theorem dispatch_event_semantics (env : BuildEnv) (app : App) (html path : String)
    (hbuild : env.build html (scroll_top app.webview.title) = .ok path) :
    dispatch env app (.LoadHtml html) =
      ([.readScroll, .buildAsset html (scroll_top app.webview.title),
        .navigate ("file://" ++ path)],
       { app with webview := { app.webview with uri := some ("file://" ++ path) } },
       true)
    ∧ dispatch env app .Reload = ([.reloadSurface], app, true)
    ∧ ∀ h s, Action.buildAsset h s ∉ (dispatch env app .Reload).1 := by
  refine ⟨?_, rfl, ?_⟩
  · simp only [dispatch, load_html, hbuild]
  · intro h s
    simp [dispatch, reload]

theorem dispatch_event_semantics_witness :
    (BuildEnv.mk (fun _ _ => .ok "p")).build "x" (scroll_top (none : Option String)) = .ok "p"
    ∧ dispatch ⟨fun _ _ => .ok "p"⟩ ⟨⟨none, none⟩⟩ (.LoadHtml "x") =
        ([.readScroll, .buildAsset "x" (scroll_top (none : Option String)),
          .navigate "file://p"],
         ⟨⟨none, some "file://p"⟩⟩, true) :=
  ⟨rfl, (dispatch_event_semantics ⟨fun _ _ => .ok "p"⟩ ⟨⟨none, none⟩⟩ "x" "p" rfl).1⟩

/-- C2: on both user-initiated shutdown paths — the Escape-key quit and
the window-close action — the Asset Stager's `delete()` runs before the
process exits.  The Escape handler calls it explicitly; the window-close
path relies on the spec-modelled scoped cleanup (assets.rs is not in
src/). -/
theorem delete_before_exit_on_quit_paths (app : App) :
    deleteBeforeExit (escapeShutdownTrace app) ∧ deleteBeforeExit windowCloseShutdownTrace := by
  constructor <;>
    simp [deleteBeforeExit, escapeShutdownTrace, windowCloseShutdownTrace,
      keyPressHandler, keyEscape, scopedCleanup, deleteEventHandler, List.takeWhile]

/-- C3: when the prior scroll state read from the webview title is absent
or does not parse as a number, the scroll position passed to
`Assets::build` is exactly 0. -/
theorem scroll_default_zero (title : Option String)
    (h : title = none ∨ ∃ t, title = some t ∧ parseF64 t = none) :
    scroll_top title = 0 := by
  rcases h with h | ⟨t, ht, hp⟩ <;> simp [scroll_top, *]

theorem scroll_default_zero_witness :
    scroll_top (some "abc") = 0 ∧ scroll_top none = 0 :=
  ⟨scroll_default_zero (some "abc") (Or.inr ⟨"abc", rfl, rfl⟩),
   scroll_default_zero none (Or.inl rfl)⟩

/-- C4: if asset staging fails while handling `LoadHtml`, the dispatch
loop logs a warning, leaves the webview state (and hence the displayed
page) unchanged, never navigates, and returns `Continue(true)` so later
events keep being processed; it never exits the process. -/
theorem loadHtml_failure_recoverable (env : BuildEnv) (app : App) (html err : String)
    (hbuild : env.build html (scroll_top app.webview.title) = .error err) :
    (dispatch env app (.LoadHtml html)).2.1 = app
    ∧ (dispatch env app (.LoadHtml html)).2.2 = true
    ∧ Action.warn ("Couldn't update HTML: " ++ err) ∈ (dispatch env app (.LoadHtml html)).1
    ∧ (∀ uri, Action.navigate uri ∉ (dispatch env app (.LoadHtml html)).1)
    ∧ Action.processExit ∉ (dispatch env app (.LoadHtml html)).1 := by
  simp [dispatch, load_html, hbuild]

theorem loadHtml_failure_recoverable_witness :
    (BuildEnv.mk (fun _ _ => .error "boom")).build "x" (scroll_top (none : Option String))
        = .error "boom"
    ∧ (dispatch ⟨fun _ _ => .error "boom"⟩ ⟨⟨none, some "u"⟩⟩ (.LoadHtml "x")).2.1
        = App.mk ⟨none, some "u"⟩ :=
  ⟨rfl, (loadHtml_failure_recoverable ⟨fun _ _ => .error "boom"⟩ ⟨⟨none, some "u"⟩⟩
      "x" "boom" rfl).1⟩

/-- C5: if the input file does not exist at startup, the program exits
with status 1 after printing an error (with GTK up, the "File not found"
message), never enters the UI event loop, and never sends any display
event. -/
theorem missing_file_startup_fatal (env : HostEnv) (h : env.fileExists = false) :
    (mainEntry env).2 = 1
    ∧ (∃ msg, Action.printErr msg ∈ (mainEntry env).1)
    ∧ Action.runUI ∉ (mainEntry env).1
    ∧ (∀ e, Action.sendEvent e ∉ (mainEntry env).1)
    ∧ (env.gtkInitOk = true →
        Action.printErr ("File not found: " ++ env.inputPath) ∈ (mainEntry env).1) := by
  by_cases hg : env.gtkInitOk = false <;>
    simp [mainEntry, run, h, hg]

theorem missing_file_startup_fatal_witness :
    (HostEnv.mk true false true (.ok "h") true "in.md").fileExists = false
    ∧ (mainEntry ⟨true, false, true, .ok "h", true, "in.md"⟩).2 = 1 :=
  ⟨rfl, (missing_file_startup_fatal ⟨true, false, true, .ok "h", true, "in.md"⟩ rfl).1⟩

/-- Helper: a nonempty signal list in which each signal arrives within
`w` of its predecessor yields exactly one debounce emission. -/
theorem debounceCount_chain (w : ℕ) :
    ∀ ts : List ℕ, ts ≠ [] → ts.Chain' (fun a b => b ≤ a + w) →
      debounceCount w ts = 1
  | [], h, _ => absurd rfl h
  | [_], _, _ => rfl
  | t₁ :: t₂ :: rest, _, hchain => by
      rw [List.chain'_cons] at hchain
      unfold debounceCount
      rw [if_pos hchain.1]
      exact debounceCount_chain w (t₂ :: rest) (by simp) hchain.2

/-- C6: a burst of N ≥ 1 raw file-change signals all arriving within one
debounce window of the first yields exactly one `LoadHtml` event on the
channel, not N. -/
theorem debounce_burst_single_emission (w t₀ : ℕ) (rest : List ℕ) (html : String)
    (signals : List ℕ) (hs : signals = t₀ :: rest)
    (hsorted : signals.Chain' (· ≤ ·))
    (hwindow : ∀ t ∈ signals, t ≤ t₀ + w) :
    debounceCount w signals = 1
    ∧ debounceEvents w signals html = [.LoadHtml html] := by
  subst hs
  have hpw : (t₀ :: rest).Pairwise (· ≤ ·) :=
    List.chain'_iff_pairwise.mp hsorted
  have hhead : ∀ a ∈ rest, t₀ ≤ a := (List.pairwise_cons.mp hpw).1
  have hgap : (t₀ :: rest).Pairwise (fun a b => b ≤ a + w) := by
    refine List.pairwise_cons.mpr ⟨fun b hb => hwindow b (List.mem_cons_of_mem _ hb), ?_⟩
    refine ((List.pairwise_cons.mp hpw).2).imp_of_mem ?_
    intro a b ha hb _
    exact le_trans (hwindow b (List.mem_cons_of_mem _ hb))
      (Nat.add_le_add_right (hhead a ha) w)
  have hcount : debounceCount w (t₀ :: rest) = 1 :=
    debounceCount_chain w (t₀ :: rest) (by simp) hgap.chain'
  exact ⟨hcount, by simp [debounceEvents, hcount]⟩

theorem debounce_burst_single_emission_witness :
    ([0, 30, 60] : List ℕ).Chain' (· ≤ ·)
    ∧ (∀ t ∈ ([0, 30, 60] : List ℕ), t ≤ 0 + 100)
    ∧ debounceCount 100 [0, 30, 60] = 1 :=
  ⟨by simp [List.chain'_cons], by decide,
   (debounce_burst_single_emission 100 0 [30, 60] "h" [0, 30, 60] rfl
      (by simp [List.chain'_cons]) (by decide)).1⟩

/-- C7: the markdown renderer is a total, deterministic function: every
input string yields an HTML string, and two renders of the same input
are equal. -/
theorem render_total_deterministic :
    ∀ m : String, (∃ html : String, render m = html) ∧ render m = render m :=
  fun m => ⟨⟨render m, rfl⟩, rfl⟩

/-- C8 counterexample: a webview title of "-5" parses as a negative
number, so the scroll position handed to `Assets::build` is negative —
the claim that it is non-negative for every title string fails. -/
theorem scroll_negative_title_counterexample :
    scroll_top (some "-5") < 0
    ∧ (dispatch ⟨fun _ _ => .ok "p"⟩ ⟨⟨some "-5", none⟩⟩ (.LoadHtml "x")).1 =
        [.readScroll, .buildAsset "x" (scroll_top (some "-5")), .navigate "file://p"] := by
  constructor
  · rw [show scroll_top (some "-5") = (-1 : ℚ) * ((natOfDigits ['5'] : ℕ) : ℚ) from rfl]
    norm_num [natOfDigits, show '5'.toNat = 53 from rfl]
  · rfl

/-- C8 amended: the scroll position handed to `Assets::build` is the
title's `f64`-parsed value when it parses and `0.0` otherwise; it is
non-negative whenever the prior scroll state is absent, fails Rust's
`f64` parse, or parses to a non-negative value.  (Titles parsing to a
negative value or NaN pass through as-is and are not non-negative.)
Stated over the full-grammar parse model `parseF64Full`, which accepts
exactly the strings Rust accepts, including exponent, `inf` and `NaN`
forms. -/
theorem scroll_nonneg_unless_negative_title (title : Option String)
    (h : title.bind parseF64Full = none ∨
         ∃ v, title.bind parseF64Full = some v ∧ v.isNonneg = true) :
    (scroll_top_f64 title).isNonneg = true := by
  unfold scroll_top_f64
  rcases h with h | ⟨v, hv, hnn⟩
  · rw [h]; rfl
  · rw [hv]; exact hnn

theorem scroll_nonneg_unless_negative_title_witness :
    (some "abc").bind parseF64Full = none
    ∧ (scroll_top_f64 (some "abc")).isNonneg = true :=
  ⟨rfl, scroll_nonneg_unless_negative_title (some "abc") (Or.inl rfl)⟩

/-- C9: on a successful startup, the initial `LoadHtml` is sent on the
channel before the background update loop is started; the update loop is
started iff the watch flag is true, i.e. iff `--no-watch` was not
passed; and with watching disabled the whole run produces exactly one
send on the channel. -/
theorem initial_render_before_watcher (env : HostEnv) (html : String) (noWatchPassed : Bool)
    (hgtk : env.gtkInitOk = true) (hfile : env.fileExists = true)
    (happ : env.appInitOk = true) (hrender : env.initialRender = .ok html)
    (hwatch : env.watch = watchOption noWatchPassed) :
    (run env).1 = [.gtkInitCall, .appInit, .attachRenderLoop, .sendEvent (.LoadHtml html)]
        ++ (if env.watch then [.startWatcher] else []) ++ [.runUI]
    ∧ (Action.startWatcher ∈ (run env).1 ↔ noWatchPassed = false)
    ∧ (noWatchPassed = false →
        ∃ i j, i < j
          ∧ (run env).1.get? i = some (.sendEvent (.LoadHtml html))
          ∧ (run env).1.get? j = some .startWatcher)
    ∧ (noWatchPassed = true →
        ((run env).1.countP (fun a => a matches .sendEvent _)) = 1) := by
  have htr : (run env).1 =
      [.gtkInitCall, .appInit, .attachRenderLoop, .sendEvent (.LoadHtml html)]
        ++ (if env.watch then [.startWatcher] else []) ++ [.runUI] := by
    simp [run, hgtk, hfile, happ, hrender]
  refine ⟨htr, ?_, ?_, ?_⟩
  · rw [htr, hwatch]
    cases noWatchPassed <;> simp [watchOption]
  · intro hn
    refine ⟨3, 4, by omega, ?_, ?_⟩ <;>
      rw [htr, hwatch, hn] <;> simp [watchOption]
  · intro hn
    rw [htr, hwatch, hn]
    simp [watchOption, List.countP_cons]

theorem initial_render_before_watcher_witness :
    (HostEnv.mk true true true (.ok "h") true "in.md").initialRender = .ok "h"
    ∧ (Action.startWatcher ∈ (run ⟨true, true, true, .ok "h", true, "in.md"⟩).1 ↔
        false = false) :=
  ⟨rfl, (initial_render_before_watcher ⟨true, true, true, .ok "h", true, "in.md"⟩
      "h" false rfl rfl rfl rfl rfl).2.1⟩

/-- C10: the Escape-quit handler is single-shot — it takes the `App` out
of the `RefCell<Option<App>>` and unwraps it, which succeeds on the first
invocation (leaving the cell empty) and panics on a second invocation
before the main loop exits. -/
theorem escape_handler_single_shot (app : App) :
    keyPressHandler keyEscape (some app) = .ok ([.deleteAssets, .mainQuit], none)
    ∧ keyPressHandler keyEscape none = .error "called Option::unwrap() on a None value" :=
  ⟨rfl, rfl⟩

end Quickmd
